import Mathlib

/-!
Shallow embedding of the personal-blog backend (FastAPI + SQLAlchemy).

The relational store is modelled as lists of rows plus fresh-id counters;
`query(...).filter(...).first()` becomes `List.find?`, `.all()` becomes
`List.filter`, `.offset(skip).limit(limit)` becomes `List.drop`/`List.take`,
in-place mutation of a fetched row becomes replacement of the first matching
element, and `db.delete(row)` becomes erasure of the first matching element.
JWTs are modelled symbolically: a signed token carries its claims together
with the key and algorithm it was signed with, and decoding succeeds exactly
when key and algorithm match and the token is unexpired.  Handlers that raise
`HTTPException` return `Except.error`; mutating handlers also return the
resulting store.
-/

namespace Blog

/-- `datetime` values, modelled as seconds since the epoch. -/
abbrev Time := Nat

/-- Row of the `users` table (src/app/models.py, class User). -/
structure User where
  id : Nat
  username : String
  email : String
  first_name : String
  last_name : String
  hashed_password : String
  role : String
deriving Repr, DecidableEq

/-- Row of the `posts` table (src/app/models.py, class Post). -/
structure Post where
  id : Nat
  title : String
  content : String
  author_id : Nat
  created_at : Time
deriving Repr, DecidableEq

/-- Row of the `comments` table (src/app/models.py, class Comment). -/
structure Comment where
  id : Nat
  content : String
  author_id : Nat
  post_id : Nat
  created_at : Time
deriving Repr, DecidableEq

/-- The relational store: one list of rows per table, plus the
autoincrement counters the engine uses to assign fresh primary keys. -/
structure DB where
  users : List User
  posts : List Post
  comments : List Comment
  nextUserId : Nat
  nextPostId : Nat
  nextCommentId : Nat
deriving Repr, DecidableEq

/-- `HTTPException` as raised by the handlers, tagged by status code. -/
inductive HError where
  | unauthorized (detail : String)
  | notFound (detail : String)
  | badRequest (detail : String)
deriving Repr, DecidableEq

/-- The HTTP status code a raised `HTTPException` carries. -/
def HError.statusCode : HError → Nat
  | .unauthorized _ => 401
  | .notFound _ => 404
  | .badRequest _ => 400

/-- Decoded JWT payload: the dictionary built by `create_access_token`.
Each claim is optional because `payload.get` returns `None` when absent. -/
structure Claims where
  sub : Option String
  id : Option Nat
  role : Option String
  exp : Time
deriving Repr, DecidableEq

/-- Errors raised by `jose.jwt.decode`. -/
inductive JWTError where
  | badSignature
  | expired
  | malformedToken
deriving Repr, DecidableEq

/-- A compact token: either a payload signed under a key and algorithm,
or a string that does not parse as a token at all. -/
inductive Token where
  | signed (claims : Claims) (key : String) (alg : String)
  | malformed
deriving Repr, DecidableEq

/-- Model of `jose.jwt.encode`. -/
def jwtEncode (claims : Claims) (key alg : String) : Token :=
  .signed claims key alg

/-- Model of `jose.jwt.decode`: checks signature (key and algorithm match)
and expiry, returning the payload on success. -/
def jwtDecode (t : Token) (key alg : String) (now : Time) : Except JWTError Claims :=
  match t with
  | .malformed => .error .malformedToken
  | .signed c k a =>
    if k = key ∧ a = alg then
      if c.exp ≤ now then .error .expired else .ok c
    else .error .badSignature

/-- The dictionary `get_current_user` returns on success. -/
structure Identity where
  username : String
  id : Nat
  role : Option String
deriving Repr, DecidableEq

/-- Model of the external passlib bcrypt `hash` function.  Modelled as a
deterministic tagged injection: the stored digest is recognisable as a
digest and determines nothing but the password that was hashed. -/
def bcryptHash (password : String) : String :=
  "$2b$12$" ++ password

/-- Model of passlib bcrypt `verify`: the comparison succeeds exactly when
the candidate password hashes to the stored digest. -/
def bcryptVerify (password hashed : String) : Bool :=
  bcryptHash password == hashed

/-- src/app/routers/auth.py, `get_current_user`: decode the bearer token;
any `JWTError`, or a payload missing `sub` or `id`, yields 401
"could not validate user"; otherwise return `{username, id, role}`. -/
def get_current_user (secret alg : String) (now : Time) (token : Token) :
    Except HError Identity :=
  match jwtDecode token secret alg now with
  | .error _ => .error (.unauthorized "could not validate user")
  | .ok payload =>
    match payload.sub, payload.id with
    | some username, some user_id => .ok ⟨username, user_id, payload.role⟩
    | none, _ => .error (.unauthorized "could not validate user")
    | _, none => .error (.unauthorized "could not validate user")

/-- src/app/routers/auth.py, `authenticate_user`: look up by exact username,
then verify the password against the stored hash; `False` becomes `none`. -/
def authenticate_user (db : DB) (username password : String) : Option User :=
  match db.users.find? (fun u => u.username == username) with
  | none => none
  | some user =>
    if bcryptVerify password user.hashed_password then some user else none

/-- src/app/routers/auth.py, `create_access_token`: sign
`{sub, id, role, exp := now + expire_delta}`. -/
def create_access_token (secret alg : String) (username : String) (user_id : Nat)
    (role : String) (expire_delta : Nat) (now : Time) : Token :=
  jwtEncode ⟨some username, some user_id, some role, now + expire_delta⟩ secret alg

/-- Request body of POST /auth/ (src/app/schemas.py, `CreatUserRequest`).
The pydantic length and enum constraints are validation-layer concerns and
are not re-modelled; `role` is kept as its stored string value. -/
structure CreatUserRequest where
  username : String
  email : String
  first_name : String
  last_name : String
  password : String
  role : String
deriving Repr, DecidableEq

/-- src/app/routers/auth.py, `create_user` (POST /auth/, 201): hash the
password, reject with 400 if a user with the same username or email exists,
otherwise persist the new row. -/
def create_user (db : DB) (req : CreatUserRequest) : Except HError User × DB :=
  let db_user : User :=
    ⟨db.nextUserId, req.username, req.email, req.first_name, req.last_name,
      bcryptHash req.password, req.role⟩
  match db.users.find?
      (fun u => u.username == db_user.username || u.email == db_user.email) with
  | some _ => (.error (.badRequest "Username already exists"), db)
  | none =>
    (.ok db_user,
      { db with users := db.users ++ [db_user], nextUserId := db.nextUserId + 1 })

/-- Response body of POST /auth/token. -/
structure TokenResponse where
  access_token : Token
  token_type : String
deriving Repr, DecidableEq

/-- src/app/routers/auth.py, `login_for_access_token` (POST /auth/token, 200):
authenticate, then issue a token with a 15-minute expiry. -/
def login_for_access_token (secret alg : String) (now : Time) (db : DB)
    (username password : String) : Except HError TokenResponse :=
  match authenticate_user db username password with
  | none => .error (.unauthorized "Incorrect username or password")
  | some user =>
    .ok ⟨create_access_token secret alg user.username user.id user.role
          (15 * 60) now, "bearer"⟩

/-- Request body for creating or updating a post (src/app/schemas.py,
`PostCreate`). -/
structure PostCreate where
  title : String
  content : String
deriving Repr, DecidableEq

/-- Request body for creating a comment (src/app/schemas.py,
`CommentCreate`). -/
structure CommentCreate where
  content : String
deriving Repr, DecidableEq

/-- In-place mutation of a fetched ORM row: replace the first element
satisfying `pred` by its image under `f`, leaving the rest of the list
untouched. -/
def updateFirst (pred : α → Bool) (f : α → α) : List α → List α
  | [] => []
  | x :: xs => if pred x then f x :: xs else x :: updateFirst pred f xs

/-- src/app/routers/posts.py, `read_all_posts` (GET /posts/, 200):
all posts whose `author_id` equals the caller's id. -/
def read_all_posts (db : DB) (user : Identity) : List Post :=
  db.posts.filter (fun p => p.author_id == user.id)

/-- src/app/routers/posts.py, `create_comment`
(POST /posts/\x7bpost_id\x7d/comment, 201): the parent post is looked up by
id alone; 404 if absent, otherwise the comment is persisted with
`author_id = caller.id`, `post_id = post_id`, `created_at = now`. -/
def create_comment (db : DB) (user : Identity) (comment : CommentCreate)
    (post_id : Nat) (now : Time) : Except HError Comment × DB :=
  match db.posts.find? (fun p => p.id == post_id) with
  | none => (.error (.notFound "Post not found"), db)
  | some _ =>
    let db_comment : Comment :=
      ⟨db.nextCommentId, comment.content, user.id, post_id, now⟩
    (.ok db_comment,
      { db with comments := db.comments ++ [db_comment],
                nextCommentId := db.nextCommentId + 1 })

/-- src/app/routers/posts.py, `read_comments`
(GET /posts/\x7bpost_id\x7d/comments, 200).  Translated exactly as written:
the second filter is `Comment.id == post_id` (the comment's own primary
key), not `Comment.post_id == post_id`. -/
def read_comments (db : DB) (user : Identity) (post_id skip limit : Nat) :
    List Comment :=
  (((db.comments.filter (fun c => c.author_id == user.id)).filter
      (fun c => c.id == post_id)).drop skip).take limit

/-- A comment eagerly joined with its author row
(`joinedload(Comment.author)`). -/
structure CommentWithAuthor where
  comment : Comment
  author : Option User
deriving Repr, DecidableEq

/-- A post eagerly joined with its comments and their authors
(`joinedload(Post.comments).joinedload(Comment.author)`). -/
structure PostWithComments where
  post : Post
  comments : List CommentWithAuthor
deriving Repr, DecidableEq

/-- src/app/routers/posts.py, `read_post_with_comments`
(GET /posts/\x7bpost_id\x7d/with-comments, 200): the post is looked up by id
alone — no `author_id` filter — and returned with all comments whose
`post_id` matches, each joined with its author row. -/
def read_post_with_comments (db : DB) (user : Identity) (post_id : Nat) :
    Except HError PostWithComments :=
  match db.posts.find? (fun p => p.id == post_id) with
  | none => .error (.notFound "Post not found")
  | some post =>
    .ok ⟨post,
      (db.comments.filter (fun c => c.post_id == post.id)).map
        (fun c => ⟨c, db.users.find? (fun u => u.id == c.author_id)⟩)⟩

/-- src/app/routers/posts.py, `read_single_post`
(GET /posts/\x7bpost_id\x7d, 200): filtered by `author_id == caller.id`
and `id == post_id`; 404 "Post not found" when no row matches both. -/
def read_single_post (db : DB) (user : Identity) (post_id : Nat) :
    Except HError Post :=
  match db.posts.find? (fun p => p.author_id == user.id && p.id == post_id) with
  | some p => .ok p
  | none => .error (.notFound "Post not found")

/-- src/app/routers/posts.py, `create_post` (POST /posts/, 201): always
persists a new row with `author_id = caller.id`, `created_at = now`. -/
def create_post (db : DB) (user : Identity) (post : PostCreate) (now : Time) :
    Post × DB :=
  let db_post : Post := ⟨db.nextPostId, post.title, post.content, user.id, now⟩
  (db_post,
    { db with posts := db.posts ++ [db_post], nextPostId := db.nextPostId + 1 })

/-- src/app/routers/posts.py, `update_post` (PUT /posts/\x7bpost_id\x7d, 200):
same ownership-filtered lookup as `read_single_post`; on a match, mutates
that row's `title` and `content` in place; 404 otherwise. -/
def update_post (db : DB) (user : Identity) (post : PostCreate) (post_id : Nat) :
    Except HError Post × DB :=
  match db.posts.find? (fun p => p.author_id == user.id && p.id == post_id) with
  | some db_post =>
    (.ok ⟨db_post.id, post.title, post.content, db_post.author_id,
        db_post.created_at⟩,
      { db with posts :=
          (updateFirst (fun p => p.author_id == user.id && p.id == post_id)
            (fun p => ⟨p.id, post.title, post.content, p.author_id,
              p.created_at⟩) db.posts) })
  | none => (.error (.notFound "Post not found"), db)

/-- src/app/routers/posts.py, `delete_post` (DELETE /posts/\x7bpost_id\x7d,
204): same ownership-filtered lookup; on a match, hard-deletes that row;
404 otherwise. -/
def delete_post (db : DB) (user : Identity) (post_id : Nat) :
    Except HError Unit × DB :=
  match db.posts.find? (fun p => p.author_id == user.id && p.id == post_id) with
  | some _ =>
    (.ok (),
      { db with posts :=
          db.posts.eraseP (fun p => p.author_id == user.id && p.id == post_id) })
  | none => (.error (.notFound "Post not found"), db)

/-- src/app/routers/comments.py, `read_single_comment`
(GET /comments/\x7bcomment_id\x7d, 200): filtered by `author_id == caller.id`
and `id == comment_id`; 404 "Comment not found" otherwise. -/
def read_single_comment (db : DB) (user : Identity) (comment_id : Nat) :
    Except HError Comment :=
  match db.comments.find?
      (fun c => c.author_id == user.id && c.id == comment_id) with
  | some c => .ok c
  | none => .error (.notFound "Comment not found")

/-- src/app/routers/comments.py, `update_comment`
(PUT /comments/\x7bcomment_id\x7d, 200): same ownership-filtered lookup; on a
match, mutates that row's `content` in place; 404 otherwise.  The `PUT`
body is `CommentBase`, whose only field the handler reads is `content`. -/
def update_comment (db : DB) (user : Identity) (content : String)
    (comment_id : Nat) : Except HError Comment × DB :=
  match db.comments.find?
      (fun c => c.author_id == user.id && c.id == comment_id) with
  | some db_comment =>
    (.ok ⟨db_comment.id, content, db_comment.author_id, db_comment.post_id,
        db_comment.created_at⟩,
      { db with comments :=
          (updateFirst (fun c => c.author_id == user.id && c.id == comment_id)
            (fun c => ⟨c.id, content, c.author_id, c.post_id, c.created_at⟩)
            db.comments) })
  | none => (.error (.notFound "Comment not found"), db)

/-- src/app/routers/comments.py, `delete_comment`
(DELETE /comments/\x7bcomment_id\x7d, 204): same ownership-filtered lookup;
on a match, hard-deletes that row; 404 otherwise. -/
def delete_comment (db : DB) (user : Identity) (comment_id : Nat) :
    Except HError Unit × DB :=
  match db.comments.find?
      (fun c => c.author_id == user.id && c.id == comment_id) with
  | some _ =>
    (.ok (),
      { db with comments :=
          (db.comments.eraseP
            (fun c => c.author_id == user.id && c.id == comment_id)) })
  | none => (.error (.notFound "Comment not found"), db)

/-- Success status code declared on the POST /posts/\x7bid\x7d/comment route. -/
def create_comment_status : Nat := 201

/-- Success status code declared on the GET /posts/\x7bid\x7d/comments route. -/
def read_comments_status : Nat := 200

/-- Sample identity used to instantiate theorems on concrete data. -/
def wAlice : Identity := ⟨"alice", 1, some "user"⟩

/-- Sample identity of a second, distinct user. -/
def wBob : Identity := ⟨"bob", 2, some "user"⟩

/-- Sample post, owned by user 1. -/
def wPost : Post := ⟨1, "Hi", "World", 1, 0⟩

/-- Sample comment by user 1 on post 1. -/
def wComment : Comment := ⟨5, "nice", 1, 1, 0⟩

/-- Sample store holding the sample post and comment. -/
def wDB : DB := ⟨[], [wPost], [wComment], 1, 2, 6⟩

/-- `updateFirst` skips a prefix that contains no match. -/
theorem updateFirst_append_of_forall (pred : α → Bool) (f : α → α)
    (l1 l2 : List α) (h : ∀ x ∈ l1, pred x = false) :
    updateFirst pred f (l1 ++ l2) = l1 ++ updateFirst pred f l2 := by
  induction l1 with
  | nil => rfl
  | cons x xs ih =>
    have hx : pred x = false := h x (List.mem_cons_self x xs)
    simp [updateFirst, hx]
    exact ih fun y hy => h y (List.mem_cons_of_mem x hy)

/-- `find?` skips a prefix where it finds nothing. -/
theorem find?_append_of_none (pred : α → Bool) (l1 l2 : List α)
    (h : l1.find? pred = none) : (l1 ++ l2).find? pred = l2.find? pred := by
  rw [List.find?_append, h, Option.none_or]

/-- C1: every single-resource read, update, and delete on posts and comments
filters by `author_id == caller.id`, so when every row carrying the
requested id belongs to someone other than the caller — in particular when
the resource exists but is owned by another user, and equally when no row
has that id — all six operations return the one fixed `NotFoundError`
value (404, "Post not found" / "Comment not found") and leave the store
unchanged; since the error value is a constant, a foreign resource is
indistinguishable from a missing one and no "forbidden" signal exists. -/
theorem not_owner_gets_not_found (db : DB) (caller : Identity) (pc : PostCreate)
    (content : String) (pid cid : Nat)
    (hp : ∀ p ∈ db.posts, p.id = pid → p.author_id ≠ caller.id)
    (hc : ∀ c ∈ db.comments, c.id = cid → c.author_id ≠ caller.id) :
    read_single_post db caller pid = .error (.notFound "Post not found") ∧
    update_post db caller pc pid = (.error (.notFound "Post not found"), db) ∧
    delete_post db caller pid = (.error (.notFound "Post not found"), db) ∧
    read_single_comment db caller cid = .error (.notFound "Comment not found") ∧
    update_comment db caller content cid =
      (.error (.notFound "Comment not found"), db) ∧
    delete_comment db caller cid = (.error (.notFound "Comment not found"), db) ∧
    (HError.notFound "Post not found").statusCode = 404 ∧
    (HError.notFound "Comment not found").statusCode = 404 := by
  have hpn : db.posts.find? (fun p => p.author_id == caller.id && p.id == pid)
      = none := by
    refine List.find?_eq_none.mpr fun x hx hcontra => ?_
    simp only [Bool.and_eq_true, beq_iff_eq] at hcontra
    exact hp x hx hcontra.2 hcontra.1
  have hcn : db.comments.find?
      (fun c => c.author_id == caller.id && c.id == cid) = none := by
    refine List.find?_eq_none.mpr fun x hx hcontra => ?_
    simp only [Bool.and_eq_true, beq_iff_eq] at hcontra
    exact hc x hx hcontra.2 hcontra.1
  refine ⟨?_, ?_, ?_, ?_, ?_, ?_, rfl, rfl⟩ <;>
    simp [read_single_post, update_post, delete_post, read_single_comment,
      update_comment, delete_comment, hpn, hcn]

/-- Witness for C1: user 2 requests post 1 and comment 5, both of which
exist and are owned by user 1; every operation answers 404. -/
theorem not_owner_gets_not_found_witness :
    read_single_post wDB wBob 1 = .error (.notFound "Post not found") ∧
    update_post wDB wBob ⟨"New", "Text"⟩ 1 =
      (.error (.notFound "Post not found"), wDB) ∧
    delete_post wDB wBob 1 = (.error (.notFound "Post not found"), wDB) ∧
    read_single_comment wDB wBob 5 = .error (.notFound "Comment not found") ∧
    update_comment wDB wBob "edited" 5 =
      (.error (.notFound "Comment not found"), wDB) ∧
    delete_comment wDB wBob 5 = (.error (.notFound "Comment not found"), wDB) ∧
    (HError.notFound "Post not found").statusCode = 404 ∧
    (HError.notFound "Comment not found").statusCode = 404 :=
  not_owner_gets_not_found wDB wBob ⟨"New", "Text"⟩ "edited" 1 5
    (by decide) (by decide)

/-- C2: refuted on the code.  `read_comments` filters by `Comment.id ==
post_id` — the comment's own primary key — instead of `Comment.post_id ==
post_id`, contradicting its docstring "read all the comments in a post".
In the sample store, comment 5 belongs to post 1 and to the caller, lies
inside the window `skip = 0, limit = 10`, yet GET /posts/1/comments
returns the empty list. -/
theorem read_comments_misses_post_comments :
    wComment ∈ wDB.comments ∧ wComment.post_id = 1 ∧
    wComment.author_id = wAlice.id ∧
    read_comments_status = 200 ∧
    read_comments wDB wAlice 1 0 10 = [] := by decide

/-- C3: creating a comment on post `pid` checks only that some post with
that id exists — no ownership condition on the parent post appears in the
lookup.  When no post has that id, the handler answers 404 "Post not
found" and the store is unchanged; when any post has that id (its owner is
unconstrained, so in particular a post owned by a different user), the
comment is persisted with `author_id = caller.id`, `post_id = pid` and
`created_at = now`, returned under the route's declared 201 status. -/
theorem create_comment_spec (db : DB) (caller : Identity)
    (comment : CommentCreate) (pid : Nat) (now : Time) :
    ((∀ p ∈ db.posts, p.id ≠ pid) →
      create_comment db caller comment pid now =
        (.error (.notFound "Post not found"), db)) ∧
    (∀ post ∈ db.posts, post.id = pid →
      create_comment db caller comment pid now =
        (.ok ⟨db.nextCommentId, comment.content, caller.id, pid, now⟩,
         { db with
            comments := db.comments ++
              [⟨db.nextCommentId, comment.content, caller.id, pid, now⟩],
            nextCommentId := db.nextCommentId + 1 })) ∧
    (HError.notFound "Post not found").statusCode = 404 ∧
    create_comment_status = 201 := by
  refine ⟨fun h => ?_, fun post hmem hid => ?_, rfl, rfl⟩
  · have hn : db.posts.find? (fun p => p.id == pid) = none := by
      refine List.find?_eq_none.mpr fun x hx hb => ?_
      simp only [beq_iff_eq] at hb
      exact h x hx hb
    simp [create_comment, hn]
  · rcases hfind : db.posts.find? (fun p => p.id == pid) with _ | q
    · exact absurd (by simpa using hid)
        (List.find?_eq_none.mp hfind post hmem)
    · simp [create_comment, hfind]

/-- Witness for C3: with the sample store, user 2 commenting on missing
post 9 gets 404 with the store unchanged, while commenting on post 1 —
owned by user 1, not the caller — persists a comment with the caller's
author id. -/
theorem create_comment_spec_witness :
    create_comment wDB wBob ⟨"hey"⟩ 9 7 =
      (.error (.notFound "Post not found"), wDB) ∧
    create_comment wDB wBob ⟨"hey"⟩ 1 7 =
      (.ok ⟨wDB.nextCommentId, "hey", wBob.id, 1, 7⟩,
       { wDB with
          comments := wDB.comments ++ [⟨wDB.nextCommentId, "hey", wBob.id, 1, 7⟩],
          nextCommentId := wDB.nextCommentId + 1 }) :=
  ⟨(create_comment_spec wDB wBob ⟨"hey"⟩ 9 7).1 (by decide),
   (create_comment_spec wDB wBob ⟨"hey"⟩ 1 7).2.1 wPost (by decide) rfl⟩

/-- C4: `get_current_user` answers 401 "could not validate user" on every
decode failure — an unparseable token, a token signed under a different
key or algorithm, an expired token — and also on a correctly signed,
unexpired token whose payload lacks `sub` or lacks `id`; on a correctly
signed, unexpired token carrying both, it returns the identity
`{username := sub, id, role}` decoded from the payload. -/
theorem get_current_user_spec (secret alg : String) (now : Time) :
    get_current_user secret alg now .malformed =
      .error (.unauthorized "could not validate user") ∧
    (∀ (c : Claims) (k a : String), k ≠ secret ∨ a ≠ alg →
      get_current_user secret alg now (.signed c k a) =
        .error (.unauthorized "could not validate user")) ∧
    (∀ (c : Claims) (k a : String), c.exp ≤ now →
      get_current_user secret alg now (.signed c k a) =
        .error (.unauthorized "could not validate user")) ∧
    (∀ c : Claims, c.sub = none ∨ c.id = none →
      get_current_user secret alg now (.signed c secret alg) =
        .error (.unauthorized "could not validate user")) ∧
    (∀ (c : Claims) (u : String) (i : Nat),
      c.sub = some u → c.id = some i → now < c.exp →
      get_current_user secret alg now (.signed c secret alg) =
        .ok ⟨u, i, c.role⟩) ∧
    (HError.unauthorized "could not validate user").statusCode = 401 := by
  refine ⟨rfl, fun c k a h => ?_, fun c k a h => ?_, fun c h => ?_,
    fun c u i hs hi he => ?_, rfl⟩
  · have hka : ¬(k = secret ∧ a = alg) := by tauto
    simp [get_current_user, jwtDecode, hka]
  · by_cases hka : k = secret ∧ a = alg <;>
      simp [get_current_user, jwtDecode, hka, h]
  · rcases hexp : decide (c.exp ≤ now) with _ | _
    · have hlt : ¬ c.exp ≤ now := of_decide_eq_false hexp
      rcases h with h | h
      · simp [get_current_user, jwtDecode, hlt, h]
      · cases hs : c.sub <;> simp [get_current_user, jwtDecode, hlt, h, hs]
    · have hle : c.exp ≤ now := of_decide_eq_true hexp
      simp [get_current_user, jwtDecode, hle]
  · simp [get_current_user, jwtDecode, Nat.not_le.mpr he, hs, hi]

/-- Witness for C4: a token signed under key "s" and algorithm "HS256"
with payload `\x7bsub := "alice", id := 1, exp := 100\x7d` validates at
time 10, is rejected at time 200 (expired), and a token missing `sub`
is rejected even though correctly signed and unexpired. -/
theorem get_current_user_spec_witness :
    get_current_user "s" "HS256" 10
      (.signed ⟨some "alice", some 1, none, 100⟩ "s" "HS256") =
        .ok ⟨"alice", 1, none⟩ ∧
    get_current_user "s" "HS256" 200
      (.signed ⟨some "alice", some 1, none, 100⟩ "s" "HS256") =
        .error (.unauthorized "could not validate user") ∧
    get_current_user "s" "HS256" 10
      (.signed ⟨none, some 1, none, 100⟩ "s" "HS256") =
        .error (.unauthorized "could not validate user") :=
  ⟨(get_current_user_spec "s" "HS256" 10).2.2.2.2.1 _ "alice" 1 rfl rfl
      (by decide),
   (get_current_user_spec "s" "HS256" 200).2.2.1 _ "s" "HS256" (by decide),
   (get_current_user_spec "s" "HS256" 10).2.2.2.1 _ (Or.inl rfl)⟩

/-- Sample registered user: "alice" with password "password1". -/
def wUser : User := ⟨1, "alice", "a@x.com", "Al", "Ice",
  bcryptHash "password1", "user"⟩

/-- Sample store in which "alice" is registered. -/
def wDB2 : DB := ⟨[wUser], [wPost], [wComment], 2, 2, 6⟩

/-- C5: registration answers 400 whenever any existing user has the same
username or the same email — no other field of the request enters the
check, which is quantified over arbitrary remaining fields — and then
persists nothing; on success the stored row carries `bcryptHash password`
in its password field and no field holds the plaintext, which the hash
never equals. -/
theorem create_user_spec (db : DB) (req : CreatUserRequest) :
    (∀ u ∈ db.users, u.username = req.username ∨ u.email = req.email →
      create_user db req = (.error (.badRequest "Username already exists"), db)) ∧
    ((∀ u ∈ db.users, u.username ≠ req.username ∧ u.email ≠ req.email) →
      create_user db req =
        (.ok ⟨db.nextUserId, req.username, req.email, req.first_name,
            req.last_name, bcryptHash req.password, req.role⟩,
         { db with
            users := db.users ++ [⟨db.nextUserId, req.username, req.email,
              req.first_name, req.last_name, bcryptHash req.password, req.role⟩],
            nextUserId := db.nextUserId + 1 })) ∧
    (∀ s : String, bcryptHash s ≠ s) ∧
    (HError.badRequest "Username already exists").statusCode = 400 := by
  have hlen : ∀ s : String, bcryptHash s ≠ s := by
    intro s h
    have hl := congrArg String.length h
    have h7 : ("$2b$12$" : String).length = 7 := rfl
    rw [bcryptHash, String.length_append, h7] at hl
    omega
  refine ⟨fun u hmem hmatch => ?_, fun h => ?_, hlen, rfl⟩
  · rcases hfind : db.users.find?
        (fun x => x.username == req.username || x.email == req.email)
      with _ | q
    · have hb : (u.username == req.username || u.email == req.email) = true := by
        rcases hmatch with h | h <;> simp [h]
      exact absurd hb (List.find?_eq_none.mp hfind u hmem)
    · simp [create_user, hfind]
  · have hn : db.users.find?
        (fun x => x.username == req.username || x.email == req.email) = none := by
      refine List.find?_eq_none.mpr fun x hx hb => ?_
      simp only [Bool.or_eq_true, beq_iff_eq] at hb
      rcases hb with hb | hb
      · exact (h x hx).1 hb
      · exact (h x hx).2 hb
    simp [create_user, hn]

/-- Witness for C5: registering a second "alice" with every other field
different is rejected with the store unchanged; registering "bob" succeeds
and stores the bcrypt digest, not the plaintext. -/
theorem create_user_spec_witness :
    create_user wDB2 ⟨"alice", "other@x.com", "Ot", "Her", "password2", "admin"⟩ =
      (.error (.badRequest "Username already exists"), wDB2) ∧
    create_user wDB2 ⟨"bob", "b@x.com", "Bo", "Bb", "password3", "user"⟩ =
      (.ok ⟨wDB2.nextUserId, "bob", "b@x.com", "Bo", "Bb",
          bcryptHash "password3", "user"⟩,
       { wDB2 with
          users := wDB2.users ++ [⟨wDB2.nextUserId, "bob", "b@x.com", "Bo", "Bb",
            bcryptHash "password3", "user"⟩],
          nextUserId := wDB2.nextUserId + 1 }) ∧
    bcryptHash "password3" ≠ "password3" :=
  ⟨(create_user_spec wDB2 ⟨"alice", "other@x.com", "Ot", "Her", "password2",
      "admin"⟩).1 wUser (by decide) (Or.inl (by decide)),
   (create_user_spec wDB2 ⟨"bob", "b@x.com", "Bo", "Bb", "password3",
      "user"⟩).2.1 (by decide),
   (create_user_spec wDB2 ⟨"bob", "b@x.com", "Bo", "Bb", "password3",
      "user"⟩).2.2.1 "password3"⟩

/-- C6: POST /auth/token with a username that has no exact match, or whose
stored hash does not verify against the supplied password, answers 401
"Incorrect username or password"; with a matching username and verifying
password it answers 200 with `\x7baccess_token, token_type := "bearer"\x7d`
where the token is signed under the configured secret and algorithm and
encodes `sub = username`, `id = user.id`, `role = user.role` and an expiry
exactly 15 minutes (900 seconds) after issuance. -/
theorem login_for_access_token_spec (secret alg : String) (now : Time)
    (db : DB) (username password : String) :
    (db.users.find? (fun u => u.username == username) = none →
      login_for_access_token secret alg now db username password =
        .error (.unauthorized "Incorrect username or password")) ∧
    (∀ user, db.users.find? (fun u => u.username == username) = some user →
      bcryptVerify password user.hashed_password = false →
      login_for_access_token secret alg now db username password =
        .error (.unauthorized "Incorrect username or password")) ∧
    (∀ user, db.users.find? (fun u => u.username == username) = some user →
      bcryptVerify password user.hashed_password = true →
      login_for_access_token secret alg now db username password =
        .ok ⟨.signed ⟨some username, some user.id, some user.role, now + 15 * 60⟩
              secret alg, "bearer"⟩) ∧
    (HError.unauthorized "Incorrect username or password").statusCode = 401 := by
  refine ⟨fun h => ?_, fun user hfind hv => ?_, fun user hfind hv => ?_, rfl⟩
  · simp [login_for_access_token, authenticate_user, h]
  · simp [login_for_access_token, authenticate_user, hfind, hv]
  · have huser : user.username = username := by
      have := List.find?_some hfind
      simpa using this
    simp [login_for_access_token, authenticate_user, hfind, hv,
      create_access_token, jwtEncode, huser]

/-- Witness for C6: logging in as "alice" with the right password yields a
bearer token carrying her claims expiring 900 seconds later; the wrong
password and an unknown username both yield 401. -/
theorem login_for_access_token_spec_witness :
    login_for_access_token "s" "HS256" 10 wDB2 "alice" "password1" =
      .ok ⟨.signed ⟨some "alice", some wUser.id, some wUser.role, 10 + 15 * 60⟩
            "s" "HS256", "bearer"⟩ ∧
    login_for_access_token "s" "HS256" 10 wDB2 "alice" "wrong" =
      .error (.unauthorized "Incorrect username or password") ∧
    login_for_access_token "s" "HS256" 10 wDB2 "carol" "password1" =
      .error (.unauthorized "Incorrect username or password") :=
  ⟨(login_for_access_token_spec "s" "HS256" 10 wDB2 "alice" "password1").2.2.1
      wUser (by decide) (by decide),
   (login_for_access_token_spec "s" "HS256" 10 wDB2 "alice" "wrong").2.1
      wUser (by decide) (by decide),
   (login_for_access_token_spec "s" "HS256" 10 wDB2 "carol" "password1").1
      (by decide)⟩

/-- `find?` over a list with no predicate matches is `none`. -/
theorem find?_eq_none_of_forall (pred : α → Bool) (l : List α)
    (h : ∀ x ∈ l, pred x = false) : l.find? pred = none := by
  refine List.find?_eq_none.mpr fun x hx hc => ?_
  rw [h x hx] at hc
  exact Bool.false_ne_true hc

/-- `find?` over a matchless prefix followed by a matching element finds
that element. -/
theorem find?_append_singleton (pred : α → Bool) (l : List α) (a : α)
    (h : ∀ x ∈ l, pred x = false) (ha : pred a = true) :
    (l ++ [a]).find? pred = some a := by
  rw [find?_append_of_none pred l [a] (find?_eq_none_of_forall pred l h)]
  exact List.find?_cons_of_pos [] ha

/-- `updateFirst` over a matchless prefix followed by a matching element
rewrites exactly that element. -/
theorem updateFirst_append_singleton (pred : α → Bool) (f : α → α) (l : List α)
    (a : α) (h : ∀ x ∈ l, pred x = false) (ha : pred a = true) :
    updateFirst pred f (l ++ [a]) = l ++ [f a] := by
  rw [updateFirst_append_of_forall pred f l [a] h]
  simp [updateFirst, ha]

/-- `eraseP` over a matchless prefix followed by a matching element removes
exactly that element. -/
theorem eraseP_append_singleton (pred : α → Bool) (l : List α) (a : α)
    (h : ∀ x ∈ l, pred x = false) (ha : pred a = true) :
    (l ++ [a]).eraseP pred = l := by
  rw [List.eraseP_append_right [a] fun b hb hc => ?_]
  · simp [List.eraseP_cons_of_pos ha]
  · rw [h b hb] at hc
    exact Bool.false_ne_true hc

/-- C7: post CRUD round-trips for any caller, on any store in which the
engine's next primary key is fresh.  The post returned by `create` carries
the requested title and content, and `get` on its id returns it; `update`
with new values succeeds and `get` then returns exactly the row with the
new title and content and the original id, author and timestamp; `delete`
then succeeds and `get` on that id afterwards answers 404 "Post not
found". -/
theorem post_crud_round_trip (db : DB) (caller : Identity) (pc pc2 : PostCreate)
    (now : Time) (newPost : Post) (db1 : DB)
    (hfresh : ∀ p ∈ db.posts, p.id ≠ db.nextPostId)
    (hcreate : create_post db caller pc now = (newPost, db1)) :
    newPost.title = pc.title ∧ newPost.content = pc.content ∧
    newPost.author_id = caller.id ∧
    read_single_post db1 caller newPost.id = .ok newPost ∧
    (update_post db1 caller pc2 newPost.id).1 =
      .ok ⟨newPost.id, pc2.title, pc2.content, newPost.author_id,
        newPost.created_at⟩ ∧
    read_single_post (update_post db1 caller pc2 newPost.id).2 caller
        newPost.id =
      .ok ⟨newPost.id, pc2.title, pc2.content, newPost.author_id,
        newPost.created_at⟩ ∧
    (delete_post (update_post db1 caller pc2 newPost.id).2 caller
        newPost.id).1 = .ok () ∧
    read_single_post
        (delete_post (update_post db1 caller pc2 newPost.id).2 caller
          newPost.id).2 caller newPost.id =
      .error (.notFound "Post not found") := by
  have hP : newPost = ⟨db.nextPostId, pc.title, pc.content, caller.id, now⟩ :=
    (congrArg Prod.fst hcreate).symm
  subst hP
  have hD : db1 = { db with
      posts := db.posts ++ [⟨db.nextPostId, pc.title, pc.content, caller.id, now⟩],
      nextPostId := db.nextPostId + 1 } :=
    (congrArg Prod.snd hcreate).symm
  subst hD
  have h0 : ∀ x ∈ db.posts,
      (x.author_id == caller.id && x.id == db.nextPostId) = false := by
    intro x hx
    have hne : (x.id == db.nextPostId) = false :=
      beq_eq_false_iff_ne.mpr (hfresh x hx)
    simp [hne]
  have hf1 : (db.posts ++
        [(⟨db.nextPostId, pc.title, pc.content, caller.id, now⟩ : Post)]).find?
      (fun p => p.author_id == caller.id && p.id == db.nextPostId) =
      some ⟨db.nextPostId, pc.title, pc.content, caller.id, now⟩ :=
    find?_append_singleton _ _ _ h0 (by simp)
  have hu : updateFirst
      (fun p => p.author_id == caller.id && p.id == db.nextPostId)
      (fun p => ⟨p.id, pc2.title, pc2.content, p.author_id, p.created_at⟩)
      (db.posts ++ [⟨db.nextPostId, pc.title, pc.content, caller.id, now⟩]) =
      db.posts ++ [⟨db.nextPostId, pc2.title, pc2.content, caller.id, now⟩] :=
    updateFirst_append_singleton _ _ _ _ h0 (by simp)
  have hf2 : (db.posts ++
        [(⟨db.nextPostId, pc2.title, pc2.content, caller.id, now⟩ : Post)]).find?
      (fun p => p.author_id == caller.id && p.id == db.nextPostId) =
      some ⟨db.nextPostId, pc2.title, pc2.content, caller.id, now⟩ :=
    find?_append_singleton _ _ _ h0 (by simp)
  have he : (db.posts ++
        [(⟨db.nextPostId, pc2.title, pc2.content, caller.id, now⟩ : Post)]).eraseP
      (fun p => p.author_id == caller.id && p.id == db.nextPostId) = db.posts :=
    eraseP_append_singleton _ _ _ h0 (by simp)
  have hn : db.posts.find?
      (fun p => p.author_id == caller.id && p.id == db.nextPostId) = none :=
    find?_eq_none_of_forall _ _ h0
  refine ⟨rfl, rfl, rfl, ?_, ?_, ?_, ?_, ?_⟩ <;>
    simp [read_single_post, update_post, delete_post, hf1, hf2, hu, he, hn]

/-- Witness for C7: alice creates a post in the sample store, reads it
back, updates it, reads the new values back, deletes it, and then gets
404. -/
theorem post_crud_round_trip_witness :
    read_single_post ⟨[wUser], [wPost, ⟨2, "Hi2", "World2", 1, 7⟩],
        [wComment], 2, 3, 6⟩ wAlice 2 = .ok ⟨2, "Hi2", "World2", 1, 7⟩ ∧
    (update_post ⟨[wUser], [wPost, ⟨2, "Hi2", "World2", 1, 7⟩],
        [wComment], 2, 3, 6⟩ wAlice ⟨"New", "Txt"⟩ 2).1 =
      .ok ⟨2, "New", "Txt", 1, 7⟩ ∧
    read_single_post (update_post ⟨[wUser], [wPost, ⟨2, "Hi2", "World2", 1, 7⟩],
        [wComment], 2, 3, 6⟩ wAlice ⟨"New", "Txt"⟩ 2).2 wAlice 2 =
      .ok ⟨2, "New", "Txt", 1, 7⟩ ∧
    (delete_post (update_post ⟨[wUser], [wPost, ⟨2, "Hi2", "World2", 1, 7⟩],
        [wComment], 2, 3, 6⟩ wAlice ⟨"New", "Txt"⟩ 2).2 wAlice 2).1 = .ok () ∧
    read_single_post (delete_post (update_post
        ⟨[wUser], [wPost, ⟨2, "Hi2", "World2", 1, 7⟩], [wComment], 2, 3, 6⟩
        wAlice ⟨"New", "Txt"⟩ 2).2 wAlice 2).2 wAlice 2 =
      .error (.notFound "Post not found") := by
  have h := post_crud_round_trip wDB2 wAlice ⟨"Hi2", "World2"⟩ ⟨"New", "Txt"⟩ 7
    ⟨2, "Hi2", "World2", 1, 7⟩
    ⟨[wUser], [wPost, ⟨2, "Hi2", "World2", 1, 7⟩], [wComment], 2, 3, 6⟩
    (by decide) rfl
  exact ⟨h.2.2.2.1, h.2.2.2.2.1, h.2.2.2.2.2.1, h.2.2.2.2.2.2.1,
    h.2.2.2.2.2.2.2⟩

/-- C8: GET /posts/\x7bpost_id\x7d/with-comments is independent of the
caller's identity — no ownership filter appears in its lookup — answers
404 "Post not found" exactly when no post carries the requested id, and on
any existing post (whoever owns it) succeeds and returns that post with
every comment whose `post_id` matches, each paired with its author row.
The handler is a pure read: it is modelled as a function that returns no
store, so it can modify no stored state. -/
theorem read_post_with_comments_spec (db : DB) (caller : Identity) (pid : Nat) :
    (∀ caller2, read_post_with_comments db caller pid =
      read_post_with_comments db caller2 pid) ∧
    ((∀ p ∈ db.posts, p.id ≠ pid) →
      read_post_with_comments db caller pid =
        .error (.notFound "Post not found")) ∧
    (∀ post ∈ db.posts, post.id = pid →
      ∀ e, read_post_with_comments db caller pid ≠ .error e) ∧
    (∀ pw, read_post_with_comments db caller pid = .ok pw →
      pw.post.id = pid ∧
      ∀ c ∈ db.comments, c.post_id = pid →
        (⟨c, db.users.find? (fun u => u.id == c.author_id)⟩ :
          CommentWithAuthor) ∈ pw.comments) ∧
    (HError.notFound "Post not found").statusCode = 404 := by
  refine ⟨fun caller2 => rfl, fun h => ?_, fun post hmem hid e hcontra => ?_,
    fun pw h => ?_, rfl⟩
  · have hn : db.posts.find? (fun p => p.id == pid) = none :=
      find?_eq_none_of_forall _ _ fun x hx =>
        beq_eq_false_iff_ne.mpr (h x hx)
    simp [read_post_with_comments, hn]
  · rcases hfind : db.posts.find? (fun p => p.id == pid) with _ | q
    · exact absurd (by simpa using hid)
        (List.find?_eq_none.mp hfind post hmem)
    · rw [read_post_with_comments, hfind] at hcontra
      simp at hcontra
  · rcases hfind : db.posts.find? (fun p => p.id == pid) with _ | q
    · rw [read_post_with_comments, hfind] at h
      simp at h
    · have hq : q.id = pid := by simpa using List.find?_some hfind
      rw [read_post_with_comments, hfind] at h
      simp only [Except.ok.injEq] at h
      subst h
      refine ⟨hq, fun c hc hcp => ?_⟩
      exact List.mem_map_of_mem _
        (List.mem_filter.mpr ⟨hc, by simp [hcp, hq]⟩)

/-- Witness for C8: user 2 fetches post 1 — owned by user 1 — through the
nested endpoint and sees it with its full comment thread, identically to
what the owner sees; a missing post id answers 404. -/
theorem read_post_with_comments_spec_witness :
    read_post_with_comments wDB2 wBob 9 = .error (.notFound "Post not found") ∧
    read_post_with_comments wDB2 wBob 1 = read_post_with_comments wDB2 wAlice 1 ∧
    (⟨wComment, some wUser⟩ : CommentWithAuthor) ∈
      (⟨wPost, [⟨wComment, some wUser⟩]⟩ : PostWithComments).comments :=
  ⟨(read_post_with_comments_spec wDB2 wBob 9).2.1 (by decide),
   (read_post_with_comments_spec wDB2 wBob 1).1 wAlice,
   (((read_post_with_comments_spec wDB2 wBob 1).2.2.2.1
      ⟨wPost, [⟨wComment, some wUser⟩]⟩ (by rfl)).2 wComment (by decide)
      rfl)⟩

/-- C9: a successful PUT on a post rewrites exactly the first row matching
the ownership filter, keeping its id, author and creation time and
replacing only title and content, while every other row and every other
table is untouched; a successful PUT on a comment likewise replaces only
that comment's content; and whenever either update answers 404 the store
is returned entirely unchanged. -/
theorem update_ops_frame (db : DB) (caller : Identity) (pc : PostCreate)
    (content : String) (pid cid : Nat) :
    (∀ l1 q l2, db.posts = l1 ++ q :: l2 →
      (∀ x ∈ l1, (x.author_id == caller.id && x.id == pid) = false) →
      q.author_id = caller.id → q.id = pid →
      update_post db caller pc pid =
        (.ok ⟨q.id, pc.title, pc.content, q.author_id, q.created_at⟩,
         { db with posts := l1 ++
            (⟨q.id, pc.title, pc.content, q.author_id, q.created_at⟩ : Post)
              :: l2 })) ∧
    ((∀ x ∈ db.posts, (x.author_id == caller.id && x.id == pid) = false) →
      update_post db caller pc pid = (.error (.notFound "Post not found"), db)) ∧
    (∀ m1 r m2, db.comments = m1 ++ r :: m2 →
      (∀ x ∈ m1, (x.author_id == caller.id && x.id == cid) = false) →
      r.author_id = caller.id → r.id = cid →
      update_comment db caller content cid =
        (.ok ⟨r.id, content, r.author_id, r.post_id, r.created_at⟩,
         { db with comments := m1 ++
            (⟨r.id, content, r.author_id, r.post_id, r.created_at⟩ : Comment)
              :: m2 })) ∧
    ((∀ x ∈ db.comments, (x.author_id == caller.id && x.id == cid) = false) →
      update_comment db caller content cid =
        (.error (.notFound "Comment not found"), db)) := by
  refine ⟨fun l1 q l2 hsplit hpre hqa hqi => ?_, fun h => ?_,
    fun m1 r m2 hsplit hpre hra hri => ?_, fun h => ?_⟩
  · have hfind : (l1 ++ q :: l2).find?
        (fun p => p.author_id == caller.id && p.id == pid) = some q := by
      rw [List.find?_append, find?_eq_none_of_forall _ _ hpre, Option.none_or]
      exact List.find?_cons_of_pos l2 (by simp [hqa, hqi])
    have hupd : updateFirst
        (fun p => p.author_id == caller.id && p.id == pid)
        (fun p => ⟨p.id, pc.title, pc.content, p.author_id, p.created_at⟩)
        (l1 ++ q :: l2) =
        l1 ++ (⟨q.id, pc.title, pc.content, q.author_id, q.created_at⟩ : Post)
          :: l2 := by
      rw [updateFirst_append_of_forall _ _ _ _ hpre]
      simp [updateFirst, hqa, hqi]
    simp [update_post, hsplit, hfind, hupd]
  · have hn : db.posts.find?
        (fun p => p.author_id == caller.id && p.id == pid) = none :=
      find?_eq_none_of_forall _ _ h
    simp [update_post, hn]
  · have hfind : (m1 ++ r :: m2).find?
        (fun c => c.author_id == caller.id && c.id == cid) = some r := by
      rw [List.find?_append, find?_eq_none_of_forall _ _ hpre, Option.none_or]
      exact List.find?_cons_of_pos m2 (by simp [hra, hri])
    have hupd : updateFirst
        (fun c => c.author_id == caller.id && c.id == cid)
        (fun c => ⟨c.id, content, c.author_id, c.post_id, c.created_at⟩)
        (m1 ++ r :: m2) =
        m1 ++ (⟨r.id, content, r.author_id, r.post_id, r.created_at⟩ : Comment)
          :: m2 := by
      rw [updateFirst_append_of_forall _ _ _ _ hpre]
      simp [updateFirst, hra, hri]
    simp [update_comment, hsplit, hfind, hupd]
  · have hn : db.comments.find?
        (fun c => c.author_id == caller.id && c.id == cid) = none :=
      find?_eq_none_of_forall _ _ h
    simp [update_comment, hn]

/-- Witness for C9: alice updates post 1 and comment 5 in the sample
store — in each case only the targeted row's updatable fields change and
the rest of the store is carried over — while bob's attempts answer 404
and return the store unchanged. -/
theorem update_ops_frame_witness :
    update_post wDB2 wAlice ⟨"T", "C"⟩ 1 =
      (.ok ⟨1, "T", "C", 1, 0⟩,
       ⟨[wUser], [⟨1, "T", "C", 1, 0⟩], [wComment], 2, 2, 6⟩) ∧
    update_post wDB2 wBob ⟨"T", "C"⟩ 1 =
      (.error (.notFound "Post not found"), wDB2) ∧
    update_comment wDB2 wAlice "edited" 5 =
      (.ok ⟨5, "edited", 1, 1, 0⟩,
       ⟨[wUser], [wPost], [⟨5, "edited", 1, 1, 0⟩], 2, 2, 6⟩) ∧
    update_comment wDB2 wBob "edited" 5 =
      (.error (.notFound "Comment not found"), wDB2) :=
  ⟨(update_ops_frame wDB2 wAlice ⟨"T", "C"⟩ "x" 1 5).1 [] wPost [] rfl
      (by decide) rfl rfl,
   (update_ops_frame wDB2 wBob ⟨"T", "C"⟩ "x" 1 5).2.1 (by decide),
   (update_ops_frame wDB2 wAlice ⟨"T", "C"⟩ "edited" 1 5).2.2.1 [] wComment []
      rfl (by decide) rfl rfl,
   (update_ops_frame wDB2 wBob ⟨"T", "C"⟩ "edited" 1 5).2.2.2 (by decide)⟩

/-- C10: a correctly signed, unexpired token whose payload has `sub` and
`id` but no `role` claim at all is accepted: `get_current_user` rejects
only a missing `sub` or missing `id`, so it returns an identity whose role
is `none`, and the ownership-filtered queries downstream scope by that
identity's id alone — they answer the same with role `none` as with any
role. -/
theorem role_claim_optional (secret alg : String) (now exp : Time)
    (u : String) (i : Nat) (hexp : now < exp) :
    get_current_user secret alg now
        (.signed ⟨some u, some i, none, exp⟩ secret alg) = .ok ⟨u, i, none⟩ ∧
    (∀ (db : DB) (r : Option String),
      read_all_posts db ⟨u, i, none⟩ = read_all_posts db ⟨u, i, r⟩) ∧
    (∀ (db : DB) (pid : Nat) (r : Option String),
      read_single_post db ⟨u, i, none⟩ pid = read_single_post db ⟨u, i, r⟩ pid) ∧
    (∀ (db : DB) (cid : Nat) (r : Option String),
      read_single_comment db ⟨u, i, none⟩ cid =
        read_single_comment db ⟨u, i, r⟩ cid) := by
  refine ⟨?_, fun db r => rfl, fun db pid r => rfl, fun db cid r => rfl⟩
  simp [get_current_user, jwtDecode, Nat.not_le.mpr hexp]

/-- Witness for C10: a role-less token for "carol" (id 3) validates at
time 20 against expiry 50 and scopes queries exactly as a role-carrying
identity would. -/
theorem role_claim_optional_witness :
    get_current_user "s" "HS256" 20
        (.signed ⟨some "carol", some 3, none, 50⟩ "s" "HS256") =
      .ok ⟨"carol", 3, none⟩ ∧
    read_all_posts wDB2 ⟨"carol", 3, none⟩ =
      read_all_posts wDB2 ⟨"carol", 3, some "admin"⟩ ∧
    read_single_post wDB2 ⟨"carol", 3, none⟩ 1 =
      read_single_post wDB2 ⟨"carol", 3, some "admin"⟩ 1 :=
  ⟨(role_claim_optional "s" "HS256" 20 50 "carol" 3 (by decide)).1,
   (role_claim_optional "s" "HS256" 20 50 "carol" 3 (by decide)).2.1 wDB2
      (some "admin"),
   (role_claim_optional "s" "HS256" 20 50 "carol" 3 (by decide)).2.2.1 wDB2 1
      (some "admin")⟩

end Blog
